import Mathlib

/-!
Verification of the trajectory-comparison plotting logic of
examples/plot_simulation.py (lines 96-115).

The script loads three head-position trajectories via get_chpi_positions
(each a translation matrix, a rotation array and a timestamp vector) and
renders them as a 3-row figure of step plots, one row per spatial axis.
We embed the plotting loop as a pure figure builder (renderFigure), as a
trace of plotting commands (scriptTrace) for the effect-shaped claims,
and give the post-step display semantics (stepDisplay) stated by the
specification for the where=post convention of ax.step.
-/

namespace PlotSim

/-- One translation sample (a row of the position matrix, in meters). -/
structure Pos3 where
  x : ℚ
  y : ℚ
  z : ℚ
deriving DecidableEq

/-- Column access data[:, ai] for ai in 0, 1, 2. -/
def Pos3.col (p : Pos3) (i : Fin 3) : ℚ :=
  if i.val = 0 then p.x else if i.val = 1 then p.y else p.z

/-- Result of get_chpi_positions for one condition: translation samples,
rotation matrices (never read by the plotting loop) and timestamps. -/
structure Chpi where
  trans : List Pos3
  rot : List (List (List ℚ))
  t : List ℚ
deriving DecidableEq

/-- labels = [stationary, original, simulated] (line 101). -/
def condLabels : List String := ["stationary", "original", "simulated"]

/-- sizes = [5, 10, 5] (line 102). -/
def condSizes : List ℕ := [5, 10, 5]

/-- colors = ykr (line 103). -/
def condColors : List Char := ['y', 'k', 'r']

/-- axes = XYZ (line 97), used as the per-row ylabel text. -/
def axesLetters : List String := ["X", "Y", "Z"]

/-- One plotted line, as produced by a single ax.step call (lines 108-109). -/
structure Line where
  xdata : List ℚ
  ydata : List ℚ
  color : Char
  marker : Char
  markersize : ℕ
  stepWhere : String
  label : String
deriving DecidableEq

/-- The markers drawn for a line: one point per (x, y) pair. -/
def Line.points (l : Line) : List (ℚ × ℚ) :=
  l.xdata.zip l.ydata

/-- One subplot created by plt.subplot(3, 1, ai + 1) together with
everything the loop body draws on it. -/
structure Subplot where
  nrows : ℕ
  ncols : ℕ
  index : ℕ
  lines : List Line
  ylabel : String
  legendLabels : Option (List String)
  xlabel : Option String
  axesCalls : List (String × String)
deriving DecidableEq

/-- The in-memory figure produced by the plotting block. -/
structure Figure where
  subplots : List Subplot
deriving DecidableEq

/-- ax.step(t, 1000 * data[:, ai], color=color, marker=o, markersize=size,
where=post, label=label) (lines 108-109). -/
def stepLine (t : List ℚ) (data : List Pos3) (size : ℕ) (color : Char)
    (label : String) (ai : Fin 3) : Line :=
  { xdata := t
    ydata := data.map (fun p => 1000 * p.col ai)
    color := color
    marker := 'o'
    markersize := size
    stepWhere := "post"
    label := label }

/-- The body of the loop over ai (lines 105-115): one subplot, the three
zipped step calls, the ylabel, the conditional legend and xlabel, and the
trailing ax.set_axes(tight) call. -/
def buildSubplot (stat orig move : Chpi) (ai : Fin 3) : Subplot :=
  let ts := [stat.t, orig.t, move.t]
  let transs := [stat.trans, orig.trans, move.trans]
  let quads := ts.zip (transs.zip (condSizes.zip (condColors.zip condLabels)))
  let lines := quads.map
    (fun q => stepLine q.1 q.2.1 q.2.2.1 q.2.2.2.1 q.2.2.2.2 ai)
  { nrows := 3
    ncols := 1
    index := ai.val + 1
    lines := lines
    ylabel := axesLetters.getD ai.val ""
    legendLabels := if ai.val = 1 then some (lines.map Line.label) else none
    xlabel := if ai.val = 2 then some "Time (sec)" else none
    axesCalls := [("set_axes", "tight")] }

/-- The figure built by lines 98-115: plt.figure() then the loop over the
three axis rows. -/
def renderFigure (stat orig move : Chpi) : Figure :=
  { subplots := (List.finRange 3).map (buildSubplot stat orig move) }

/-- The data actually plotted: per subplot, per line, the (x, y) vectors. -/
def Figure.plottedData (f : Figure) : List (List (List ℚ × List ℚ)) :=
  f.subplots.map (fun sp => sp.lines.map (fun l => (l.xdata, l.ydata)))

/-- C1: for every condition and every axis index i, the values plotted on
subplot row i are exactly 1000 times column i of that condition's position
matrix, with no other transformation. -/
theorem plotted_values_are_scaled_columns (s o m : Chpi) :
    (renderFigure s o m).subplots.map (fun sp => sp.lines.map Line.ydata) =
      (List.finRange 3).map (fun i =>
        [s.trans, o.trans, m.trans].map
          (fun tr => tr.map (fun p => 1000 * p.col i))) := rfl

/-- C3: the figure contains exactly 3 stacked subplots, arranged as a
3-row 1-column grid, with vertical-axis labels X, Y, Z. -/
theorem figure_has_three_stacked_subplots (s o m : Chpi) :
    (renderFigure s o m).subplots.length = 3 ∧
    (renderFigure s o m).subplots.map
        (fun sp => (sp.nrows, sp.ncols, sp.index)) =
      [(3, 1, 1), (3, 1, 2), (3, 1, 3)] ∧
    (renderFigure s o m).subplots.map Subplot.ylabel = ["X", "Y", "Z"] :=
  ⟨rfl, rfl, rfl⟩

/-- C5: a legend appears on exactly the second (middle) subplot and lists
exactly the three condition labels in order stationary, original,
simulated. -/
theorem legend_on_middle_subplot_only (s o m : Chpi) :
    (renderFigure s o m).subplots.map Subplot.legendLabels =
      [none, some ["stationary", "original", "simulated"], none] := rfl

/-- C6: the label Time (sec) appears on exactly the third (last)
subplot. -/
theorem xlabel_on_last_subplot_only (s o m : Chpi) :
    (renderFigure s o m).subplots.map Subplot.xlabel =
      [none, none, some "Time (sec)"] := rfl

/-- Modelled from the spec: the display semantics of a step plot with
where=post (matplotlib itself is not part of this repository). The spec
glossary states that between two consecutive samples the displayed value
equals the value of the earlier sample until the later timestamp is
reached. stepDisplay xs ys q is the displayed value at time q: the y of
the last sample whose timestamp is at most q, none before the first
sample. -/
def stepDisplay : List ℚ → List ℚ → ℚ → Option ℚ
  | [], _, _ => none
  | _ :: _, [], _ => none
  | x :: xs, y :: ys, q =>
    if q < x then none
    else
      match stepDisplay xs ys q with
      | some v => some v
      | none => some y

theorem stepDisplay_head_lt {x : ℚ} {xs ys : List ℚ} {q : ℚ} (h : q < x) :
    stepDisplay (x :: xs) ys q = none := by
  cases ys with
  | nil => rfl
  | cons y ys => simp [stepDisplay, h]

/-- On a strictly increasing timestamp list, the displayed value between
sample j and sample j + 1 is held constant at the y value of sample j. -/
theorem stepDisplay_holds_constant (xs ys : List ℚ) (j : ℕ) (q : ℚ)
    (hs : List.Pairwise (· < ·) xs) (hj : j + 1 < xs.length)
    (hlen : xs.length ≤ ys.length)
    (h1 : xs.getD j 0 ≤ q) (h2 : q < xs.getD (j + 1) 0) :
    stepDisplay xs ys q = some (ys.getD j 0) := by
  induction xs generalizing ys j with
  | nil => simp at hj
  | cons x xs ih =>
    cases ys with
    | nil => simp at hlen
    | cons y ys =>
      cases j with
      | zero =>
        cases xs with
        | nil => simp at hj
        | cons x1 xs1 =>
          simp only [List.getD_cons_zero] at h1
          simp only [List.getD_cons_succ, List.getD_cons_zero] at h2
          rw [stepDisplay, if_neg (not_lt.mpr h1),
            stepDisplay_head_lt h2]
          rfl
      | succ j =>
        simp only [List.getD_cons_succ] at h1 h2 ⊢
        have hjx : j < xs.length := by
          have := hj
          simp only [List.length_cons] at this
          omega
        have hxq : x ≤ q := by
          have hmem : xs.getD j 0 ∈ xs := by
            rw [List.getD_eq_getElem xs 0 hjx]
            exact List.getElem_mem hjx
          have hx : x < xs.getD j 0 :=
            (List.pairwise_cons.mp hs).1 _ hmem
          exact le_of_lt (lt_of_lt_of_le hx h1)
        have hrec : stepDisplay xs ys q = some (ys.getD j 0) := by
          refine ih ys j (List.pairwise_cons.mp hs).2 ?_ ?_ h1 h2
          · simpa using hj
          · simpa using hlen
        rw [stepDisplay, if_neg (not_lt.mpr hxq), hrec]

/-- C4: within every subplot the three condition trajectories are drawn
in order stationary, original, simulated, each by a step call with
where=post, circular markers, the condition color and marker size; and
the post-step display convention holds the plotted value constant from
each timestamp until the next. -/
theorem lines_order_styling_and_post_step (s o m : Chpi) :
    ((renderFigure s o m).subplots.map (fun sp => sp.lines.map
        (fun l => (l.label, l.color, l.marker, l.markersize, l.stepWhere))) =
      List.replicate 3
        [("stationary", 'y', 'o', 5, "post"),
         ("original", 'k', 'o', 10, "post"),
         ("simulated", 'r', 'o', 5, "post")]) ∧
    (∀ xs ys : List ℚ, ∀ j : ℕ, ∀ q : ℚ,
      List.Pairwise (· < ·) xs → j + 1 < xs.length →
      xs.length ≤ ys.length →
      xs.getD j 0 ≤ q → q < xs.getD (j + 1) 0 →
      stepDisplay xs ys q = some (ys.getD j 0)) :=
  ⟨rfl, fun xs ys j q hs hj hlen h1 h2 =>
    stepDisplay_holds_constant xs ys j q hs hj hlen h1 h2⟩

/-- The plotting commands the block can emit: module-level pyplot calls
(figure, subplot, legend) and methods invoked on the current axis object
(step, set_ylabel, set_xlabel, set_axes), plus the save call that the
pyplot API offers but the script never issues. -/
inductive PltCmd where
  | figure : PltCmd
  | subplot (nrows ncols index : ℕ) : PltCmd
  | step (x y : List ℚ) (color marker : Char) (markersize : ℕ)
      (stepWhere : String) (label : String) : PltCmd
  | set_ylabel (s : String) : PltCmd
  | legend (labels : List String) : PltCmd
  | set_xlabel (s : String) : PltCmd
  | set_axes (arg : String) : PltCmd
  | savefig (path : String) : PltCmd
deriving DecidableEq

/-- The commands emitted by one iteration of the loop body
(lines 105-115), in program order. -/
def iterTrace (stat orig move : Chpi) (ai : Fin 3) : List PltCmd :=
  let ts := [stat.t, orig.t, move.t]
  let transs := [stat.trans, orig.trans, move.trans]
  let quads := ts.zip (transs.zip (condSizes.zip (condColors.zip condLabels)))
  [PltCmd.subplot 3 1 (ai.val + 1)] ++
    quads.map (fun q =>
      PltCmd.step q.1 (q.2.1.map (fun p => 1000 * p.col ai))
        q.2.2.2.1 'o' q.2.2.1 "post" q.2.2.2.2) ++
    [PltCmd.set_ylabel (axesLetters.getD ai.val "")] ++
    (if ai.val = 1 then [PltCmd.legend (quads.map (fun q => q.2.2.2.2))]
      else []) ++
    (if ai.val = 2 then [PltCmd.set_xlabel "Time (sec)"] else []) ++
    [PltCmd.set_axes "tight"]

/-- The full command trace of lines 98-115: plt.figure() followed by the
three loop iterations. -/
def scriptTrace (stat orig move : Chpi) : List PltCmd :=
  PltCmd.figure :: List.flatten ((List.finRange 3).map (iterTrace stat orig move))

/-- The name of the axis method a command invokes on the current axis
object, none for module-level pyplot calls. -/
def axMethodName : PltCmd → Option String
  | .step _ _ _ _ _ _ _ => some "step"
  | .set_ylabel _ => some "set_ylabel"
  | .set_xlabel _ => some "set_xlabel"
  | .set_axes _ => some "set_axes"
  | _ => none

/-- Modelled from the spec: the methods that exist on plotting-axis
objects (matplotlib is not part of this repository). The spec states that
step, set_ylabel and set_xlabel behave as documented while set_axes does
not exist on typical plotting-axis objects. -/
def axesMethods : List String := ["step", "set_ylabel", "set_xlabel"]

/-- A command fails with an attribute-lookup error when it invokes an
axis method that does not exist. -/
def cmdFails (c : PltCmd) : Bool :=
  match axMethodName c with
  | some nm => !(axesMethods.contains nm)
  | none => false

/-- Position of the first command whose axis-method lookup fails. -/
def firstFailureIdx (trace : List PltCmd) : Option ℕ :=
  trace.findIdx? cmdFails

/-- C2: every subplot iteration ends with a call to set_axes(tight),
which is not an existing axis method, so the attribute-lookup failure is
reached at trace position 6, inside the first iteration (the first
iteration spans positions 1 to 1 + its length = 7). -/
theorem set_axes_lookup_fails_in_first_iteration (s o m : Chpi) :
    firstFailureIdx (scriptTrace s o m) = some 6 ∧
    (scriptTrace s o m)[6]? = some (PltCmd.set_axes "tight") ∧
    (∀ ai : Fin 3,
      (iterTrace s o m ai).getLast? = some (PltCmd.set_axes "tight")) ∧
    6 < 1 + (iterTrace s o m 0).length :=
  ⟨rfl, rfl, fun ai => by fin_cases ai <;> rfl, by
    have h : 1 + (iterTrace s o m 0).length = 7 := rfl
    omega⟩

/-- C7: on every subplot, each condition contributes as many plotted
points as that condition has timestamps; the three timestamp lists are
unrelated to one another. -/
theorem point_counts_match_timestamp_lengths (s o m : Chpi)
    (hs : s.trans.length = s.t.length) (ho : o.trans.length = o.t.length)
    (hm : m.trans.length = m.t.length) :
    (renderFigure s o m).subplots.map
        (fun sp => sp.lines.map (fun l => l.points.length)) =
      [[s.t.length, o.t.length, m.t.length],
       [s.t.length, o.t.length, m.t.length],
       [s.t.length, o.t.length, m.t.length]] := by
  have h3 : List.finRange 3 = [0, 1, 2] := rfl
  simp [renderFigure, buildSubplot, stepLine, Line.points, h3,
    List.length_zip, hs, ho, hm, condSizes, condColors, condLabels,
    List.zip_cons_cons, Function.comp]

/-- The global pyplot state: the list of figures created so far. -/
structure PltState where
  figures : List Figure
deriving DecidableEq

/-- Lines 98-115 as a transformer of the pyplot state: plt.figure()
appends a fresh figure, the loop fills it in. Returns the produced
figure together with the new state. -/
def plotBlock (st : PltState) (s o m : Chpi) : Figure × PltState :=
  let fig := renderFigure s o m
  (fig, { figures := st.figures ++ [fig] })

/-- C8: the plotting block is deterministic: the plotted data of the
produced figure do not depend on the pre-existing pyplot state, and
running the block a second time on identical inputs yields a second
figure with identical plotted data. -/
theorem plot_block_deterministic (st st₁ : PltState) (s o m : Chpi) :
    (plotBlock st s o m).1.plottedData = (plotBlock st₁ s o m).1.plottedData ∧
    (plotBlock (plotBlock st s o m).2 s o m).1.plottedData =
      (plotBlock st s o m).1.plottedData :=
  ⟨rfl, rfl⟩

/-- The ambient state the plotting block could touch: the three loaded
trajectories, a file store, and the pyplot state. -/
structure World where
  stat : Chpi
  orig : Chpi
  move : Chpi
  files : List (String × String)
  plt : PltState
deriving DecidableEq

/-- Lines 96-115 acting on the world. The block reads the trajectories
and appends one figure to the pyplot state; it touches nothing else. -/
def runPlotScript (w : World) : Figure × World :=
  let r := plotBlock w.plt w.stat w.orig w.move
  (r.1, { stat := w.stat, orig := w.orig, move := w.move,
          files := w.files, plt := r.2 })

def isSavefig : PltCmd → Bool
  | .savefig _ => true
  | _ => false

def isFigureCmd : PltCmd → Bool
  | .figure => true
  | _ => false

/-- C9: the only effect of the plotting block is one new in-memory
figure: the trajectories and the file store are unchanged, exactly one
figure is appended, and the emitted command trace contains no save call
and exactly one figure-creation call. -/
theorem plot_block_single_figure_no_writes (w : World) :
    (runPlotScript w).2.stat = w.stat ∧
    (runPlotScript w).2.orig = w.orig ∧
    (runPlotScript w).2.move = w.move ∧
    (runPlotScript w).2.files = w.files ∧
    (runPlotScript w).2.plt.figures = w.plt.figures ++ [(runPlotScript w).1] ∧
    (scriptTrace w.stat w.orig w.move).countP isSavefig = 0 ∧
    (scriptTrace w.stat w.orig w.move).countP isFigureCmd = 1 :=
  ⟨rfl, rfl, rfl, rfl, rfl, rfl, rfl⟩

/-- C10: the plotted data depend only on the timestamps and the
translation columns; the rotation data returned alongside them are
irrelevant. -/
theorem plotted_data_ignores_rotation (s o m s₁ o₁ m₁ : Chpi)
    (hst : s.t = s₁.t) (hsx : s.trans = s₁.trans)
    (hot : o.t = o₁.t) (hox : o.trans = o₁.trans)
    (hmt : m.t = m₁.t) (hmx : m.trans = m₁.trans) :
    (renderFigure s o m).plottedData = (renderFigure s₁ o₁ m₁).plottedData := by
  obtain ⟨strans, srot, st⟩ := s
  obtain ⟨otrans, orot, ot⟩ := o
  obtain ⟨mtrans, mrot, mt⟩ := m
  obtain ⟨strans₁, srot₁, st₁⟩ := s₁
  obtain ⟨otrans₁, orot₁, ot₁⟩ := o₁
  obtain ⟨mtrans₁, mrot₁, mt₁⟩ := m₁
  dsimp only at hst hsx hot hox hmt hmx
  subst hst hsx hot hox hmt hmx
  rfl

/-- Concrete stationary-condition data (3 samples). -/
def chpiStat : Chpi :=
  { trans := [⟨0, 0, 0⟩, ⟨0, 0, 0⟩, ⟨0, 0, 0⟩]
    rot := []
    t := [0, 1, 2] }

/-- Concrete original-condition data (2 samples). -/
def chpiOrig : Chpi :=
  { trans := [⟨0, 0, 0⟩, ⟨1/1000, 0, 0⟩]
    rot := [[[1, 0], [0, 1]]]
    t := [0, 1/2] }

/-- Concrete simulated-condition data (4 samples). -/
def chpiMove : Chpi :=
  { trans := [⟨0, 0, 0⟩, ⟨2/1000, 0, 0⟩, ⟨2/1000, 0, 0⟩, ⟨2/1000, 0, 0⟩]
    rot := [[[0]]]
    t := [0, 1, 3/2, 2] }

/-- Same timestamps and translations as chpiOrig, different rotations. -/
def chpiOrigAltRot : Chpi :=
  { trans := chpiOrig.trans
    rot := [[[5, 5], [5, 5]]]
    t := chpiOrig.t }

/-- Witness for C4 at concrete inputs: between the samples at times 0 and
2, the post-step display of y values 5, 7, 9 is held at 5. -/
theorem lines_order_styling_and_post_step_witness :
    stepDisplay [0, 2, 4] [5, 7, 9] 1 = some 5 :=
  (lines_order_styling_and_post_step chpiStat chpiOrig chpiMove).2
    [0, 2, 4] [5, 7, 9] 0 1 (by decide) (by decide) (by decide)
    (by decide) (by decide)

/-- Witness for C7 at concrete inputs with lengths 3, 2 and 4. -/
theorem point_counts_match_timestamp_lengths_witness :
    (renderFigure chpiStat chpiOrig chpiMove).subplots.map
        (fun sp => sp.lines.map (fun l => l.points.length)) =
      [[3, 2, 4], [3, 2, 4], [3, 2, 4]] :=
  point_counts_match_timestamp_lengths chpiStat chpiOrig chpiMove rfl rfl rfl

/-- Witness for C10 at concrete inputs whose rotation data differ. -/
theorem plotted_data_ignores_rotation_witness :
    (renderFigure chpiStat chpiOrig chpiMove).plottedData =
      (renderFigure chpiStat chpiOrigAltRot chpiMove).plottedData :=
  plotted_data_ignores_rotation chpiStat chpiOrig chpiMove
    chpiStat chpiOrigAltRot chpiMove rfl rfl rfl rfl rfl rfl

end PlotSim
